import Mathlib

/-!
Shallow embedding of `src/main.py` of the student multi-LLM chatbot.

The program orchestrates four text-generation providers (GPT, Gemini, Claude,
Perplexity).  A provider is modelled as a function from prompts to
`Except String String` (`.error e` models a raised exception with message `e`).
Every pipeline threads an explicit call log `List (Provider × String)` recording,
in order, each provider call made together with the exact prompt sent, so that
call counts, call order and prompt contents are provable.  The process-wide
mutable cell `last_plan_for_a` is modelled by explicit state passing of an
`Option String` through the `chat` dispatcher.
-/

/-- The four provider backends of `src/main.py` (`call_gpt`, `call_gemini`,
`call_claude`, `call_perplexity`).  In the spec's role vocabulary:
`gpt` = reasoning/drafting, `gemini` = synthesis/validation,
`claude` = long-form, `perplexity` = search/retrieval. -/
inductive Provider where
  | gpt
  | gemini
  | claude
  | perplexity
deriving DecidableEq, Repr

/-- A provider environment: what each backend answers to each prompt;
`.error e` models the provider call raising an exception with message `e`. -/
abbrev Gen := Provider → String → Except String String

/-- A provider environment that always succeeds, answering with `f`. -/
def okGen (f : Provider → String → String) : Gen :=
  fun p s => Except.ok (f p s)

/-- One provider call: returns the provider's result and appends the call
(provider, prompt) to the call log. -/
def callLLM (gen : Gen) (p : Provider) (prompt : String)
    (log : List (Provider × String)) :
    Except String String × List (Provider × String) :=
  (gen p prompt, log ++ [(p, prompt)])

/-- One sequential pipeline stage: make the provider call; a raised exception
aborts the pipeline (propagates to the caller), a successful answer is passed
to the continuation `k` together with the extended call log. -/
def step (gen : Gen) (p : Provider) (prompt : String)
    (log : List (Provider × String))
    (k : String → List (Provider × String) →
      Except String String × List (Provider × String)) :
    Except String String × List (Provider × String) :=
  match callLLM gen p prompt log with
  | (.error e, log) => (.error e, log)
  | (.ok x, log) => k x log

/-- `REPORT_KEYWORDS` from `src/main.py` (lines 44–52). -/
def REPORT_KEYWORDS : List String :=
  ["보고서", "보고 서", "보고서를", "보고서로", "작성해", "작성해줘", "작성해 줘"]

/-- Python's substring containment `needle in haystack` on strings. -/
def containsSubstr (needle haystack : String) : Prop :=
  needle.data <:+: haystack.data

instance containsSubstr.decidable (n h : String) : Decidable (containsSubstr n h) :=
  List.decidableInfix n.data h.data

/-- `is_report_request` from `src/main.py` (lines 329–334): keyword-based
intent classifier, true iff any keyword of `REPORT_KEYWORDS` occurs in `text`
as a substring. -/
def is_report_request (text : String) : Bool :=
  REPORT_KEYWORDS.any (fun keyword => decide (containsSubstr keyword text))

/-- Prompt of stage 1 (Perplexity, background) of `handle_mode_a_plan`. -/
def prompt_a_bg (user_input : String) : String :=
  "\n고등학생 수준에서 이해할 수 있게, 아래 탐구 주제의 배경지식을 정리해줘.\n\n탐구 주제: "
    ++ user_input ++ "\n"

/-- Prompt of stage 2 (GPT, candidate directions) of `handle_mode_a_plan`. -/
def prompt_a_ideas (user_input bg : String) : String :=
  "\n[탐구 주제]\n" ++ user_input ++ "\n\n[배경지식]\n" ++ bg
    ++ "\n\n위 정보를 바탕으로, 고등학생 수행평가용 탐구 과제 후보를 설계해줘.\n- 탐구 질문/가설\n- 탐구 방법(실험 또는 조사)\n- 난이도(쉬움/보통/어려움)\n\n이런 아이디어를 3~5개 번호 목록(1, 2, 3, ...)으로 작성해줘.\n"

/-- Prompt of stage 3 (Gemini, recommendation) of `handle_mode_a_plan`. -/
def prompt_a_plan (user_input bg ideas : String) : String :=
  "\n너는 고등학생 탐구보고서 지도 교사야.\n\n[탐구 주제]\n" ++ user_input
    ++ "\n\n[배경지식 요약]\n" ++ bg
    ++ "\n\n[가능한 탐구 방향 아이디어들]\n" ++ ideas
    ++ "\n\n위 내용을 바탕으로,\n1. 가장 적절해 보이는 탐구 방향 1~2개를 추천하고,\n2. 각 방향에 대해 다음 형식으로만 정리해줘.\n\n- 탐구 방향 번호 (예: 후보 2번)\n- 탐구 제목\n- 탐구 목적\n- 탐구 질문/가설\n- 간단한 탐구 방법 개요\n\n아직 보고서 본문을 쓰지는 말고,\n\x27어떤 방향으로 탐구할지\x27만 정리해줘.\n\n마지막 줄에 다음 문장을 꼭 붙여줘:\n\n\"➡ 이 중에서 선택한 번호와 함께 \x27이제 이 중에서 X번으로 탐구 보고서 작성해줘\x27라고 요청하면, 이에 맞는 탐구 보고서를 작성해 줄 수 있습니다.\"\n"

/-- `handle_mode_a_plan` from `src/main.py` (lines 341–407):
Perplexity (background) → GPT (candidate directions) → Gemini (plan). -/
def handle_mode_a_plan (gen : Gen) (user_input : String)
    (log : List (Provider × String)) :
    Except String String × List (Provider × String) :=
  step gen .perplexity (prompt_a_bg user_input) log fun bg log =>
    step gen .gpt (prompt_a_ideas user_input bg) log fun ideas log =>
      step gen .gemini (prompt_a_plan user_input bg ideas) log fun plan log =>
        (.ok plan, log)

/-- Prompt of stage 1 (Gemini, direction inference + outline) of
`handle_mode_a_report`. -/
def prompt_a_outline (previous_answer user_input : String) : String :=
  "\n너는 고등학생 탐구보고서 작성 도우미야.\n\n[이전 단계에서 생성된 탐구 방향/계획]\n"
    ++ previous_answer
    ++ "\n\n[사용자의 추가 요청]\n" ++ user_input
    ++ "\n\n1. 사용자가 어느 탐구 방향(몇 번)을 선택했는지 추론하고,\n2. 그 방향에 맞는 탐구보고서의 \x27개요(목차 + 각 항목 요약)\x27를 먼저 만들어줘.\n\n개요 형식 예시:\n1. 서론 (문제 제기, 탐구 동기)\n2. 이론적 배경\n3. 탐구 방법\n4. 탐구 결과\n5. 결론 및 느낀 점\n\n각 항목 아래에, 어떤 내용을 쓸지 2~3문장 정도로 간단히 설명해줘.\n아직 문단 전체를 길게 쓰지는 마.\n"

/-- Prompt of stage 2 (Claude, full report body) of `handle_mode_a_report`. -/
def prompt_a_report (outline : String) : String :=
  "\n아래는 고등학생 과학 탐구보고서의 개요야.\n\n[보고서 개요]\n" ++ outline
    ++ "\n\n이 개요를 바탕으로, 실제 탐구보고서 초안을 작성해줘.\n요구사항:\n- 고등학생이 제출하는 수행평가/탐구보고서 톤\n- 서론 / 이론적 배경 / 탐구 방법 / 탐구 결과(예상 결과 가능) / 결론 및 느낀 점 순서\n- 각 항목은 최소 2~3문단 정도로 작성\n- 너무 전문 용어만 남발하지 말고, 필요하면 괄호 안에 간단한 설명\n\n전체를 하나의 보고서처럼 자연스럽게 이어지게 써줘.\n"

/-- `handle_mode_a_report` from `src/main.py` (lines 410–460):
Gemini (outline from stored plan + new request) → Claude (full report). -/
def handle_mode_a_report (gen : Gen) (user_input previous_answer : String)
    (log : List (Provider × String)) :
    Except String String × List (Provider × String) :=
  step gen .gemini (prompt_a_outline previous_answer user_input) log fun outline log =>
    step gen .claude (prompt_a_report outline) log fun final_report log =>
      (.ok final_report, log)

/-- Prompt of stage 1 (Perplexity, facts) of `handle_mode_b_essay`. -/
def prompt_b_facts (user_input : String) : String :=
  "\n아래 논설문 주제와 관련해서, 사실 자료/통계/사례를 한국어로 간단히 정리해줘.\n논설문 주제: "
    ++ user_input ++ "\n"

/-- Prompt of stage 2 (GPT, essay draft) of `handle_mode_b_essay`. -/
def prompt_b_draft (user_input facts : String) : String :=
  "\n너는 고등학생 논설문을 도와주는 한국어 선생님이야.\n\n[논설문 주제]\n" ++ user_input
    ++ "\n\n[참고 자료]\n" ++ facts
    ++ "\n\n요구 사항:\n- 서론 / 본론(2~3개의 논거) / 결론 구조\n- 문어체, 존댓말\n- 분량: 대략 800~1200자\n\n위 조건에 맞는 논설문 초안을 작성해줘.\n"

/-- Prompt of stage 3 (Gemini, logic check) of `handle_mode_b_essay`. -/
def prompt_b_check (draft : String) : String :=
  "\n다음은 고등학생이 제출할 논설문 초안이야.\n\n[초안]\n" ++ draft
    ++ "\n\n너의 역할:\n1. 논리 전개가 자연스러운지 확인하고, 어색하거나 모순된 부분을 지적 후 수정.\n2. 과도한 표현이나 사실과 다를 수 있는 부분은 완화해서 표현.\n3. 전체 구조(서론-본론-결론)는 유지하되, 문장의 흐름만 살짝 정리.\n\n수정된 논설문만 한국어로 보여줘.\n"

/-- Prompt of stage 4 (Claude, polish) of `handle_mode_b_essay`. -/
def prompt_b_polish (checked : String) : String :=
  "\n아래는 논리적으로 점검된 고등학생 논설문이야.\n\n[논설문]\n" ++ checked
    ++ "\n\n이 글의:\n- 문장을 조금 더 자연스럽고 유려하게 다듬고\n- 문단 간 연결을 부드럽게 이어주고\n- 전체 톤은 \x27고등학생 수준의 정중한 논설문\x27으로 유지해줘.\n\n최종 수정본만 보여줘.\n"

/-- `handle_mode_b_essay` from `src/main.py` (lines 463–531):
Perplexity (facts) → GPT (draft) → Gemini (logic check) → Claude (polish). -/
def handle_mode_b_essay (gen : Gen) (user_input : String)
    (log : List (Provider × String)) :
    Except String String × List (Provider × String) :=
  step gen .perplexity (prompt_b_facts user_input) log fun facts log =>
    step gen .gpt (prompt_b_draft user_input facts) log fun draft log =>
      step gen .gemini (prompt_b_check draft) log fun checked log =>
        step gen .claude (prompt_b_polish checked) log fun final log =>
          (.ok final, log)

/-- Prompt of stage 1 (GPT, raw brainstorm) of `handle_mode_c_ideas`. -/
def prompt_c_raw (user_input : String) : String :=
  "\n너는 고등학생을 돕는 아이디어 브레인스토밍 도우미야.\n\n[사용자 요청]\n" ++ user_input
    ++ "\n\n위 요청을 바탕으로, 서로 충분히 다른 아이디어를 최소 20개 bullet 목록으로 만들어줘.\n각 아이디어는 한 줄 요약으로 작성해.\n"

/-- Prompt of stage 2 (Gemini, filter/rank) of `handle_mode_c_ideas`. -/
def prompt_c_refine (user_input raw_ideas : String) : String :=
  "\n너는 창의적이면서도 현실적인 아이디어를 골라주는 전문가야.\n\n[사용자 요청]\n" ++ user_input
    ++ "\n\n[GPT가 만든 아이디어 20개]\n" ++ raw_ideas
    ++ "\n\n위 아이디어 중에서,\n- 실현 가능성이 높고\n- 교육적으로 의미 있고\n- 어느 정도 창의적인 것\n\n을 중심으로 10개만 고르는 동시에,\n각 아이디어에 대해:\n- 아이디어 제목\n- 실현 가능성: 높음/보통/낮음\n- 설명: 1~2문장\n- 확장 아이디어: 1~2개 bullet\n\n형식으로 정리해줘.\n"

/-- Prompt of stage 3 (Claude, cosmetic reformat) of `handle_mode_c_ideas`. -/
def prompt_c_final (refined : String) : String :=
  "\n아래는 고등학생을 위한 아이디어 목록이야.\n\n" ++ refined
    ++ "\n\n이 목록을:\n- 문장만 조금 더 자연스럽게 다듬고\n- 번호와 구성을 보기 좋게 정리해줘.\n내용은 크게 바꾸지 말고 표현만 정리해줘.\n"

/-- `handle_mode_c_ideas` from `src/main.py` (lines 534–594):
GPT (≥20 ideas) → Gemini (pick 10, label) → Claude (reformat). -/
def handle_mode_c_ideas (gen : Gen) (user_input : String)
    (log : List (Provider × String)) :
    Except String String × List (Provider × String) :=
  step gen .gpt (prompt_c_raw user_input) log fun raw_ideas log =>
    step gen .gemini (prompt_c_refine user_input raw_ideas) log fun refined log =>
      step gen .claude (prompt_c_final refined) log fun final log =>
        (.ok final, log)

/-- Prompt of stage 1 (Perplexity, web research) of `handle_mode_d_research`. -/
def prompt_d_research (user_input : String) : String :=
  "\n아래 주제에 대해 웹 자료를 조사해서,\n핵심 내용과 중요한 포인트를 한국어로 요약해줘.\n필요하면 간단한 출처도 함께 적어줘.\n\n주제: "
    ++ user_input ++ "\n"

/-- Prompt of stage 2 (Gemini, restructure) of `handle_mode_d_research`. -/
def prompt_d_final (px_answer : String) : String :=
  "\n아래는 웹에서 조사된 내용이야.\n\n[조사 내용]\n" ++ px_answer
    ++ "\n\n이 내용을 고등학생이 이해하기 쉬운 수준으로,\n- 소제목 3~5개\n- 각 소제목 아래 bullet 2~4개\n\n형태로 한국어로 정리해줘.\n너무 어려운 전문 용어는 간단한 설명을 함께 붙여줘.\n"

/-- `handle_mode_d_research` from `src/main.py` (lines 597–630):
Perplexity (research) → Gemini (restructure). -/
def handle_mode_d_research (gen : Gen) (user_input : String)
    (log : List (Provider × String)) :
    Except String String × List (Provider × String) :=
  step gen .perplexity (prompt_d_research user_input) log fun px_answer log =>
    step gen .gemini (prompt_d_final px_answer) log fun final log =>
      (.ok final, log)

/-- `ModeType = Literal["A", "B", "C", "D"]` from `src/main.py` (line 35). -/
inductive Mode where
  | A
  | B
  | C
  | D
deriving DecidableEq, Repr

/-- `ChatRequest` from `src/main.py` (lines 258–260). -/
structure ChatRequest where
  mode : Mode
  user_input : String

/-- The fixed instructional message returned in mode A when a report is
requested but no plan is stored (`src/main.py` lines 657–664). -/
def no_plan_notice : String :=
  "[알림] 아직 1단계 탐구 방향/계획이 저장되어 있지 않습니다.\n먼저 같은 주제로 A 모드에서 탐구 방향을 요청해 주세요.\n\n예시:\nA 모드에서\n  \"미세플라스틱과 수질 오염을 주제로 과학 탐구 방향을 설계해줘\" 라고 먼저 요청한 뒤,\n  그 다음에 \"이제 위에서 추천한 2번 방향으로 탐구 보고서 작성해줘\" 라고 요청하면 됩니다."

/-- The HTTP 500 detail string produced by the `except` handler of `chat`
(`src/main.py` lines 684–690), wrapping the underlying exception message. -/
def server_error_detail (e : String) : String :=
  "서버 내부 오류가 발생했습니다(AI 호출 또는 처리 중 문제): " ++ e

/-- Result of one `chat` call: the HTTP response (`.ok answer` or
`.error detail` for the HTTP 500 raised on exception), the value of the
global `last_plan_for_a` after the call, and the ordered provider call log. -/
structure ChatResult where
  resp : Except String String
  state : Option String
  log : List (Provider × String)

/-- The `chat` endpoint from `src/main.py` (lines 637–690).  The global
`last_plan_for_a` is passed in and returned explicitly; an exception escaping a
pipeline is caught and turned into `.error (server_error_detail e)`, leaving
the global unchanged. -/
def chat (gen : Gen) (req : ChatRequest) (last_plan_for_a : Option String) :
    ChatResult :=
  match req.mode with
  | .A =>
    let text := req.user_input
    let want_report := is_report_request text
    if want_report then
      match last_plan_for_a with
      | none =>
        { resp := .ok no_plan_notice, state := none, log := [] }
      | some prev =>
        match handle_mode_a_report gen req.user_input prev [] with
        | (.ok answer, log) =>
          { resp := .ok answer, state := some prev, log := log }
        | (.error e, log) =>
          { resp := .error (server_error_detail e), state := some prev, log := log }
    else
      match handle_mode_a_plan gen req.user_input [] with
      | (.ok plan, log) =>
        { resp := .ok plan, state := some plan, log := log }
      | (.error e, log) =>
        { resp := .error (server_error_detail e), state := last_plan_for_a, log := log }
  | .B =>
    match handle_mode_b_essay gen req.user_input [] with
    | (.ok answer, log) =>
      { resp := .ok answer, state := last_plan_for_a, log := log }
    | (.error e, log) =>
      { resp := .error (server_error_detail e), state := last_plan_for_a, log := log }
  | .C =>
    match handle_mode_c_ideas gen req.user_input [] with
    | (.ok answer, log) =>
      { resp := .ok answer, state := last_plan_for_a, log := log }
    | (.error e, log) =>
      { resp := .error (server_error_detail e), state := last_plan_for_a, log := log }
  | .D =>
    match handle_mode_d_research gen req.user_input [] with
    | (.ok answer, log) =>
      { resp := .ok answer, state := last_plan_for_a, log := log }
    | (.error e, log) =>
      { resp := .error (server_error_detail e), state := last_plan_for_a, log := log }

/-- Modelled from the spec: request validation is performed outside the core
(`"request validation plumbing"` is an external collaborator) by pydantic
against the closed `ModeType = Literal["A", "B", "C", "D"]` annotation declared
in `src/main.py` (line 35); a mode value outside the enumeration is rejected
with a `ValidationError` before `chat` runs. -/
def parse_mode (s : String) : Option Mode :=
  if s = "A" then some .A
  else if s = "B" then some .B
  else if s = "C" then some .C
  else if s = "D" then some .D
  else none

/-- Modelled from the spec: the request boundary.  A raw request carries an
arbitrary mode string; validation rejects it with a `ValidationError` when it
is outside the enumeration, and otherwise the dispatcher `chat` runs. -/
def handle_raw (gen : Gen) (modeStr text : String) (s : Option String) :
    Except String ChatResult :=
  match parse_mode modeStr with
  | none => .error "ValidationError"
  | some m => .ok (chat gen ⟨m, text⟩ s)

/-- All calls in the log received a successful (`.ok`) provider answer. -/
def okCalls (gen : Gen) (l : List (Provider × String)) : Prop :=
  ∀ c ∈ l, ∃ o, gen c.1 c.2 = Except.ok o

/-- The plan-store state after handling a whole sequence of requests. -/
def runSeq (gen : Gen) (reqs : List ChatRequest) (s : Option String) :
    Option String :=
  reqs.foldl (fun st r => (chat gen r st).state) s

/-- Stage-1 output of a successful plan-pipeline run under provider answers `f`. -/
def bgOf (f : Provider → String → String) (t : String) : String :=
  f .perplexity (prompt_a_bg t)

/-- Stage-2 output of a successful plan-pipeline run under provider answers `f`. -/
def ideasOf (f : Provider → String → String) (t : String) : String :=
  f .gpt (prompt_a_ideas t (bgOf f t))

/-- Stage-3 (final) output of a successful plan-pipeline run under `f`. -/
def planOf (f : Provider → String → String) (t : String) : String :=
  f .gemini (prompt_a_plan t (bgOf f t) (ideasOf f t))

/-- Stage-1 output of a successful continue-pipeline run under `f`. -/
def outlineOf (f : Provider → String → String) (prev t : String) : String :=
  f .gemini (prompt_a_outline prev t)

/-- Stage-2 (final) output of a successful continue-pipeline run under `f`. -/
def reportOf (f : Provider → String → String) (prev t : String) : String :=
  f .claude (prompt_a_report (outlineOf f prev t))

/-- Stage-1 output of a successful essay-pipeline run under `f`. -/
def factsOf (f : Provider → String → String) (t : String) : String :=
  f .perplexity (prompt_b_facts t)

/-- Stage-2 output of a successful essay-pipeline run under `f`. -/
def draftOf (f : Provider → String → String) (t : String) : String :=
  f .gpt (prompt_b_draft t (factsOf f t))

/-- Stage-3 output of a successful essay-pipeline run under `f`. -/
def checkedOf (f : Provider → String → String) (t : String) : String :=
  f .gemini (prompt_b_check (draftOf f t))

/-- Stage-4 (final) output of a successful essay-pipeline run under `f`. -/
def polishedOf (f : Provider → String → String) (t : String) : String :=
  f .claude (prompt_b_polish (checkedOf f t))

/-- Stage-1 output of a successful ideas-pipeline run under `f`. -/
def rawIdeasOf (f : Provider → String → String) (t : String) : String :=
  f .gpt (prompt_c_raw t)

/-- Stage-2 output of a successful ideas-pipeline run under `f`. -/
def refinedOf (f : Provider → String → String) (t : String) : String :=
  f .gemini (prompt_c_refine t (rawIdeasOf f t))

/-- Stage-3 (final) output of a successful ideas-pipeline run under `f`. -/
def ideasFinalOf (f : Provider → String → String) (t : String) : String :=
  f .claude (prompt_c_final (refinedOf f t))

/-- Stage-1 output of a successful research-pipeline run under `f`. -/
def pxOf (f : Provider → String → String) (t : String) : String :=
  f .perplexity (prompt_d_research t)

/-- Stage-2 (final) output of a successful research-pipeline run under `f`. -/
def researchFinalOf (f : Provider → String → String) (t : String) : String :=
  f .gemini (prompt_d_final (pxOf f t))

/-- Mock provider answers for the spec's concrete plan-branch scenario:
Perplexity answers "BG", GPT answers "IDEAS", Gemini answers "PLAN_OUT". -/
def fMockPlan : Provider → String → String := fun p _ =>
  match p with
  | .perplexity => "BG"
  | .gpt => "IDEAS"
  | .gemini => "PLAN_OUT"
  | .claude => "CLD"

/-- Mock provider answers with a distinct constant answer per backend. -/
def fMock : Provider → String → String := fun p _ =>
  match p with
  | .perplexity => "PPX_OUT"
  | .gpt => "GPT_OUT"
  | .gemini => "GEM_OUT"
  | .claude => "CLD_OUT"

/-- A provider environment whose GPT backend fails with message "boom" while
all other backends answer "R". -/
def genFailGpt : Gen := fun p _ =>
  match p with
  | .gpt => .error "boom"
  | _ => .ok "R"

/-- Every string is a substring of itself. -/
theorem substr_refl (b : String) : containsSubstr b b :=
  ⟨[], [], by simp⟩

/-- Substring containment is preserved by appending on the right. -/
theorem substr_append_left {b h : String} (g : String)
    (hsub : containsSubstr b h) : containsSubstr b (h ++ g) := by
  obtain ⟨s, t, hst⟩ := hsub
  exact ⟨s, t ++ g.data, by rw [String.data_append, ← hst]; simp⟩

/-- Substring containment is preserved by prepending on the left. -/
theorem substr_append_right {b h : String} (g : String)
    (hsub : containsSubstr b h) : containsSubstr b (g ++ h) := by
  obtain ⟨s, t, hst⟩ := hsub
  exact ⟨g.data ++ s, t, by rw [String.data_append, ← hst]; simp⟩

/-- C1: in mode "A", when the intent classifier judges the text as
not-finalize, `chat` makes exactly the 3 provider calls of the plan pipeline in
order (Perplexity search, GPT reasoning, Gemini synthesis), overwrites the plan
store with the Gemini synthesis output, and returns that same output. -/
theorem chat_modeA_plan_branch (f : Provider → String → String) (text : String)
    (s : Option String) (h : is_report_request text = false) :
    chat (okGen f) ⟨Mode.A, text⟩ s =
      { resp := Except.ok (planOf f text),
        state := some (planOf f text),
        log := [(Provider.perplexity, prompt_a_bg text),
                (Provider.gpt, prompt_a_ideas text (bgOf f text)),
                (Provider.gemini, prompt_a_plan text (bgOf f text) (ideasOf f text))] } := by
  simp [chat, h, handle_mode_a_plan, step, callLLM, okGen, planOf, ideasOf, bgOf]

/-- Witness for C1 at the spec's concrete scenario: input "pollution" with
mocked providers answering "BG", "IDEAS", "PLAN_OUT". -/
theorem chat_modeA_plan_branch_witness :
    chat (okGen fMockPlan) ⟨Mode.A, "pollution"⟩ none =
      { resp := Except.ok (planOf fMockPlan "pollution"),
        state := some (planOf fMockPlan "pollution"),
        log := [(Provider.perplexity, prompt_a_bg "pollution"),
                (Provider.gpt, prompt_a_ideas "pollution" (bgOf fMockPlan "pollution")),
                (Provider.gemini, prompt_a_plan "pollution" (bgOf fMockPlan "pollution")
                  (ideasOf fMockPlan "pollution"))] } :=
  chat_modeA_plan_branch fMockPlan "pollution" none (by decide)

/-- C2: in mode "A", when the intent classifier returns true and the plan
store holds `x`, `chat` makes exactly the 2 provider calls of the continue
pipeline (Gemini synthesis, then Claude long-form), the synthesis prompt
contains the stored plan text `x` literally as a substring, the Claude
long-form output is returned as the answer, and the plan store still holds `x`
afterward. -/
theorem chat_modeA_report_branch (f : Provider → String → String)
    (text x : String) (h : is_report_request text = true) :
    chat (okGen f) ⟨Mode.A, text⟩ (some x) =
      { resp := Except.ok (reportOf f x text),
        state := some x,
        log := [(Provider.gemini, prompt_a_outline x text),
                (Provider.claude, prompt_a_report (outlineOf f x text))] }
    ∧ containsSubstr x (prompt_a_outline x text) := by
  constructor
  · simp [chat, h, handle_mode_a_report, step, callLLM, okGen, reportOf, outlineOf]
  · unfold prompt_a_outline
    exact substr_append_left _ (substr_append_left _ (substr_append_left _
      (substr_append_right _ (substr_refl x))))

/-- Witness for C2: input "이제 1번으로 보고서 작성해줘" (classifier true) with
stored plan "X" and mocked providers. -/
theorem chat_modeA_report_branch_witness :
    chat (okGen fMock) ⟨Mode.A, "이제 1번으로 보고서 작성해줘"⟩ (some "X") =
      { resp := Except.ok (reportOf fMock "X" "이제 1번으로 보고서 작성해줘"),
        state := some "X",
        log := [(Provider.gemini, prompt_a_outline "X" "이제 1번으로 보고서 작성해줘"),
                (Provider.claude,
                  prompt_a_report (outlineOf fMock "X" "이제 1번으로 보고서 작성해줘"))] }
    ∧ containsSubstr "X" (prompt_a_outline "X" "이제 1번으로 보고서 작성해줘") :=
  chat_modeA_report_branch fMock "이제 1번으로 보고서 작성해줘" "X" (by decide)

/-- C3: in mode "A", when the intent classifier returns true and the plan
store is empty, `chat` returns the fixed instructional notice, makes zero
provider calls (for any provider environment), and the plan store stays
empty. -/
theorem chat_modeA_noplan_notice (gen : Gen) (text : String)
    (h : is_report_request text = true) :
    chat gen ⟨Mode.A, text⟩ none =
      { resp := Except.ok no_plan_notice, state := none, log := [] } := by
  simp [chat, h]

/-- Witness for C3 at input "보고서 작성해줘" with a provider environment whose
GPT backend would fail (irrelevant: no call is made). -/
theorem chat_modeA_noplan_notice_witness :
    chat genFailGpt ⟨Mode.A, "보고서 작성해줘"⟩ none =
      { resp := Except.ok no_plan_notice, state := none, log := [] } :=
  chat_modeA_noplan_notice genFailGpt "보고서 작성해줘" (by decide)

/-- C4: the intent classifier `is_report_request` is a pure function of its
input returning true iff some keyword of the fixed list `REPORT_KEYWORDS`
occurs in the input as a (case-sensitive, character-literal) substring; in
particular any input containing a keyword inside a longer unrelated word still
makes it return true. -/
theorem is_report_request_iff (text : String) :
    is_report_request text = true ↔
      ∃ k ∈ REPORT_KEYWORDS, containsSubstr k text := by
  simp [is_report_request, List.any_eq_true]

set_option maxRecDepth 100000 in
/-- Counterexample to C5: run the essay pipeline on input "pollution" with
mocked providers.  The third stage's prompt (Gemini logic check) does NOT
contain the original user input "pollution" as a substring — it embeds only
the second stage's output — refuting "each stage's prompt embeds verbatim the
outputs of all prior stages plus the original user input". -/
theorem stage_prompt_accumulation_counterexample :
    ((handle_mode_b_essay (okGen fMock) "pollution" []).2.map Prod.snd).get? 2 =
      some (prompt_b_check (draftOf fMock "pollution")) ∧
    ¬ containsSubstr "pollution" (prompt_b_check (draftOf fMock "pollution")) ∧
    ¬ containsSubstr (factsOf fMock "pollution")
        (prompt_b_check (draftOf fMock "pollution")) := by
  refine ⟨by decide, by decide, by decide⟩

/-- C5 (amended): in every pipeline each stage's prompt embeds verbatim the
output of the immediately preceding stage, and the first stage's prompt embeds
the original user input; the plan pipeline's stages (and stage 2 of the essay
and ideas pipelines) additionally embed the original input and all prior
outputs, but the remaining later stages embed only the immediately preceding
stage's output. -/
theorem stage_prompt_prev_output_embedding (f : Provider → String → String)
    (text prev : String) :
    (containsSubstr text (prompt_a_bg text) ∧
     containsSubstr text (prompt_a_ideas text (bgOf f text)) ∧
     containsSubstr (bgOf f text) (prompt_a_ideas text (bgOf f text)) ∧
     containsSubstr text (prompt_a_plan text (bgOf f text) (ideasOf f text)) ∧
     containsSubstr (bgOf f text) (prompt_a_plan text (bgOf f text) (ideasOf f text)) ∧
     containsSubstr (ideasOf f text) (prompt_a_plan text (bgOf f text) (ideasOf f text))) ∧
    (containsSubstr prev (prompt_a_outline prev text) ∧
     containsSubstr text (prompt_a_outline prev text) ∧
     containsSubstr (outlineOf f prev text) (prompt_a_report (outlineOf f prev text))) ∧
    (containsSubstr text (prompt_b_facts text) ∧
     containsSubstr text (prompt_b_draft text (factsOf f text)) ∧
     containsSubstr (factsOf f text) (prompt_b_draft text (factsOf f text)) ∧
     containsSubstr (draftOf f text) (prompt_b_check (draftOf f text)) ∧
     containsSubstr (checkedOf f text) (prompt_b_polish (checkedOf f text))) ∧
    (containsSubstr text (prompt_c_raw text) ∧
     containsSubstr text (prompt_c_refine text (rawIdeasOf f text)) ∧
     containsSubstr (rawIdeasOf f text) (prompt_c_refine text (rawIdeasOf f text)) ∧
     containsSubstr (refinedOf f text) (prompt_c_final (refinedOf f text))) ∧
    (containsSubstr text (prompt_d_research text) ∧
     containsSubstr (pxOf f text) (prompt_d_final (pxOf f text))) := by
  refine ⟨⟨?_, ?_, ?_, ?_, ?_, ?_⟩, ⟨?_, ?_, ?_⟩, ⟨?_, ?_, ?_, ?_, ?_⟩,
    ⟨?_, ?_, ?_, ?_⟩, ⟨?_, ?_⟩⟩
  · unfold prompt_a_bg
    exact substr_append_left _ (substr_append_right _ (substr_refl _))
  · unfold prompt_a_ideas
    exact substr_append_left _ (substr_append_left _ (substr_append_left _
      (substr_append_right _ (substr_refl _))))
  · unfold prompt_a_ideas
    exact substr_append_left _ (substr_append_right _ (substr_refl _))
  · unfold prompt_a_plan
    exact substr_append_left _ (substr_append_left _ (substr_append_left _
      (substr_append_left _ (substr_append_left _
        (substr_append_right _ (substr_refl _))))))
  · unfold prompt_a_plan
    exact substr_append_left _ (substr_append_left _ (substr_append_left _
      (substr_append_right _ (substr_refl _))))
  · unfold prompt_a_plan
    exact substr_append_left _ (substr_append_right _ (substr_refl _))
  · unfold prompt_a_outline
    exact substr_append_left _ (substr_append_left _ (substr_append_left _
      (substr_append_right _ (substr_refl _))))
  · unfold prompt_a_outline
    exact substr_append_left _ (substr_append_right _ (substr_refl _))
  · unfold prompt_a_report
    exact substr_append_left _ (substr_append_right _ (substr_refl _))
  · unfold prompt_b_facts
    exact substr_append_left _ (substr_append_right _ (substr_refl _))
  · unfold prompt_b_draft
    exact substr_append_left _ (substr_append_left _ (substr_append_left _
      (substr_append_right _ (substr_refl _))))
  · unfold prompt_b_draft
    exact substr_append_left _ (substr_append_right _ (substr_refl _))
  · unfold prompt_b_check
    exact substr_append_left _ (substr_append_right _ (substr_refl _))
  · unfold prompt_b_polish
    exact substr_append_left _ (substr_append_right _ (substr_refl _))
  · unfold prompt_c_raw
    exact substr_append_left _ (substr_append_right _ (substr_refl _))
  · unfold prompt_c_refine
    exact substr_append_left _ (substr_append_left _ (substr_append_left _
      (substr_append_right _ (substr_refl _))))
  · unfold prompt_c_refine
    exact substr_append_left _ (substr_append_right _ (substr_refl _))
  · unfold prompt_c_final
    exact substr_append_left _ (substr_append_right _ (substr_refl _))
  · unfold prompt_d_research
    exact substr_append_left _ (substr_append_right _ (substr_refl _))
  · unfold prompt_d_final
    exact substr_append_left _ (substr_append_right _ (substr_refl _))

/-- C6: for each non-two-phase mode, with deterministic provider answers `f`,
`chat` runs exactly the mode's fixed stage chain in order — B: Perplexity
retrieval, GPT reasoning, Gemini synthesis, Claude long-form; C: GPT
reasoning, Gemini synthesis, Claude long-form; D: Perplexity retrieval, Gemini
synthesis — and the answer equals the last stage's provider output,
unmodified. -/
theorem chat_modes_bcd_chains (f : Provider → String → String) (text : String)
    (s : Option String) :
    chat (okGen f) ⟨Mode.B, text⟩ s =
      { resp := Except.ok (polishedOf f text),
        state := s,
        log := [(Provider.perplexity, prompt_b_facts text),
                (Provider.gpt, prompt_b_draft text (factsOf f text)),
                (Provider.gemini, prompt_b_check (draftOf f text)),
                (Provider.claude, prompt_b_polish (checkedOf f text))] } ∧
    chat (okGen f) ⟨Mode.C, text⟩ s =
      { resp := Except.ok (ideasFinalOf f text),
        state := s,
        log := [(Provider.gpt, prompt_c_raw text),
                (Provider.gemini, prompt_c_refine text (rawIdeasOf f text)),
                (Provider.claude, prompt_c_final (refinedOf f text))] } ∧
    chat (okGen f) ⟨Mode.D, text⟩ s =
      { resp := Except.ok (researchFinalOf f text),
        state := s,
        log := [(Provider.perplexity, prompt_d_research text),
                (Provider.gemini, prompt_d_final (pxOf f text))] } := by
  refine ⟨?_, ?_, ?_⟩ <;>
    simp [chat, handle_mode_b_essay, handle_mode_c_ideas, handle_mode_d_research,
      step, callLLM, okGen, polishedOf, checkedOf, draftOf, factsOf,
      ideasFinalOf, refinedOf, rawIdeasOf, researchFinalOf, pxOf]

/-- C7: handling a request in mode B, C or D never writes the plan store (the
state after the call equals the state before, for any provider environment,
even a failing one), never reads it (the response and the call log do not
depend on it), and hence running the essay mode twice with the same input
yields the same response both times. -/
theorem chat_modes_bcd_no_state (gen : Gen) (text : String)
    (s s' : Option String) :
    ((chat gen ⟨Mode.B, text⟩ s).state = s ∧
     (chat gen ⟨Mode.C, text⟩ s).state = s ∧
     (chat gen ⟨Mode.D, text⟩ s).state = s) ∧
    ((chat gen ⟨Mode.B, text⟩ s).resp = (chat gen ⟨Mode.B, text⟩ s').resp ∧
     (chat gen ⟨Mode.C, text⟩ s).resp = (chat gen ⟨Mode.C, text⟩ s').resp ∧
     (chat gen ⟨Mode.D, text⟩ s).resp = (chat gen ⟨Mode.D, text⟩ s').resp) ∧
    (chat gen ⟨Mode.B, text⟩ ((chat gen ⟨Mode.B, text⟩ s).state)).resp =
      (chat gen ⟨Mode.B, text⟩ s).resp := by
  rcases hb : handle_mode_b_essay gen text [] with ⟨rb, lb⟩
  rcases hc : handle_mode_c_ideas gen text [] with ⟨rc, lc⟩
  rcases hd : handle_mode_d_research gen text [] with ⟨rd, ld⟩
  cases rb <;> cases rc <;> cases rd <;> simp [chat, hb, hc, hd]

/-- Case analysis of one `chat` call's effect on the plan store: it is left
unchanged, or overwritten with the successful result of a fresh plan-pipeline
run. -/
theorem chat_state_cases (gen : Gen) (req : ChatRequest) (st : Option String) :
    (chat gen req st).state = st ∨
    ∃ p l, handle_mode_a_plan gen req.user_input [] = (Except.ok p, l) ∧
      (chat gen req st).state = some p := by
  rcases req with ⟨mode, text⟩
  cases mode
  case B =>
    rcases hb : handle_mode_b_essay gen text [] with ⟨rb, lb⟩
    cases rb <;> simp [chat, hb]
  case C =>
    rcases hc : handle_mode_c_ideas gen text [] with ⟨rc, lc⟩
    cases rc <;> simp [chat, hc]
  case D =>
    rcases hd : handle_mode_d_research gen text [] with ⟨rd, ld⟩
    cases rd <;> simp [chat, hd]
  case A =>
    cases hw : is_report_request text with
    | true =>
      cases st with
      | none => left; simp [chat, hw]
      | some prev =>
        rcases hr : handle_mode_a_report gen text prev [] with ⟨r, l⟩
        cases r <;> (left; simp [chat, hw, hr])
    | false =>
      rcases hp : handle_mode_a_plan gen text [] with ⟨r, l⟩
      cases r with
      | ok p => right; exact ⟨p, l, rfl, by simp [chat, hw, hp]⟩
      | error e => left; simp [chat, hw, hp]

/-- A `chat` call never empties a non-empty plan store. -/
theorem chat_state_ne_none (gen : Gen) (req : ChatRequest) (st : Option String)
    (h : st ≠ none) : (chat gen req st).state ≠ none := by
  rcases chat_state_cases gen req st with hc | ⟨p, l, _, hc⟩
  · rw [hc]; exact h
  · rw [hc]; simp

/-- A whole request sequence never empties a non-empty plan store. -/
theorem runSeq_ne_none (gen : Gen) (reqs : List ChatRequest) (s : Option String)
    (h : s ≠ none) : runSeq gen reqs s ≠ none := by
  induction reqs generalizing s with
  | nil => simpa [runSeq] using h
  | cons r rs ih => exact ih ((chat gen r s).state) (chat_state_ne_none gen r s h)

/-- C8: once the plan store holds a value, no sequence of handled requests
returns it to empty; each individual `chat` call either leaves the stored plan
unchanged or overwrites it with the result of a fresh successful plan-pipeline
run. -/
theorem plan_store_never_cleared (gen : Gen) (reqs : List ChatRequest)
    (s : Option String) (req : ChatRequest) (st : Option String)
    (h : s ≠ none) :
    runSeq gen reqs s ≠ none ∧
    ((chat gen req st).state = st ∨
     ∃ p l, handle_mode_a_plan gen req.user_input [] = (Except.ok p, l) ∧
       (chat gen req st).state = some p) :=
  ⟨runSeq_ne_none gen reqs s h, chat_state_cases gen req st⟩

/-- Witness for C8: a stored plan "P" survives a mode-A report request
followed by a mode-B request. -/
theorem plan_store_never_cleared_witness :
    runSeq (okGen fMockPlan)
      [⟨Mode.A, "이제 보고서 작성해줘"⟩, ⟨Mode.B, "topic"⟩] (some "P") ≠ none ∧
    ((chat (okGen fMockPlan) ⟨Mode.A, "pollution"⟩ (some "P")).state = some "P" ∨
     ∃ p l, handle_mode_a_plan (okGen fMockPlan) "pollution" [] = (Except.ok p, l) ∧
       (chat (okGen fMockPlan) ⟨Mode.A, "pollution"⟩ (some "P")).state = some p) :=
  plan_store_never_cleared (okGen fMockPlan)
    [⟨Mode.A, "이제 보고서 작성해줘"⟩, ⟨Mode.B, "topic"⟩] (some "P")
    ⟨Mode.A, "pollution"⟩ (some "P") (by simp)

/-- C9: a request whose mode string lies outside the closed enumeration
{"A", "B", "C", "D"} is rejected with a `ValidationError` (spec-modelled
boundary validation; the dispatcher body never runs). -/
theorem handle_raw_validation_error (gen : Gen) (modeStr text : String)
    (s : Option String) (h : modeStr ∉ (["A", "B", "C", "D"] : List String)) :
    handle_raw gen modeStr text s = Except.error "ValidationError" := by
  have h1 : modeStr ≠ "A" := fun he => h (by simp [he])
  have h2 : modeStr ≠ "B" := fun he => h (by simp [he])
  have h3 : modeStr ≠ "C" := fun he => h (by simp [he])
  have h4 : modeStr ≠ "D" := fun he => h (by simp [he])
  simp [handle_raw, parse_mode, h1, h2, h3, h4]

/-- Witness for C9 at the out-of-enumeration mode "E". -/
theorem handle_raw_validation_error_witness :
    handle_raw (okGen fMock) "E" "t" none = Except.error "ValidationError" :=
  handle_raw_validation_error (okGen fMock) "E" "t" none (by decide)

/-- Inversion of one failing pipeline stage: either this stage's provider call
failed (and it is the last logged call), or it succeeded and the failure comes
from the continuation. -/
theorem step_error (gen : Gen) (p : Provider) (prompt : String)
    (log : List (Provider × String))
    (k : String → List (Provider × String) →
      Except String String × List (Provider × String))
    (e : String) (log' : List (Provider × String))
    (h : step gen p prompt log k = (Except.error e, log')) :
    (gen p prompt = Except.error e ∧ log' = log ++ [(p, prompt)]) ∨
    (∃ x, gen p prompt = Except.ok x ∧
      k x (log ++ [(p, prompt)]) = (Except.error e, log')) := by
  unfold step callLLM at h
  rcases hg : gen p prompt with e1 | x <;> simp only [hg] at h
  · injection h with h1 h2
    exact Or.inl ⟨h1, h2.symm⟩
  · exact Or.inr ⟨x, rfl, h⟩

/-- A failing plan-pipeline run logs exactly the calls up to and including the
first failing one: every earlier call succeeded, the last failed. -/
theorem plan_pipeline_abort (gen : Gen) (t e : String)
    (l : List (Provider × String))
    (h : handle_mode_a_plan gen t [] = (Except.error e, l)) :
    ∃ pre c, l = pre ++ [c] ∧ gen c.1 c.2 = Except.error e ∧ okCalls gen pre := by
  unfold handle_mode_a_plan at h
  rcases step_error _ _ _ _ _ _ _ h with ⟨hg1, hl⟩ | ⟨bg, hg1, h2⟩
  · refine ⟨[], (Provider.perplexity, prompt_a_bg t), by simpa using hl, hg1, ?_⟩
    simp [okCalls]
  rcases step_error _ _ _ _ _ _ _ h2 with ⟨hg2, hl⟩ | ⟨ideas, hg2, h3⟩
  · refine ⟨[(Provider.perplexity, prompt_a_bg t)],
      (Provider.gpt, prompt_a_ideas t bg), by simpa using hl, hg2, ?_⟩
    simp [okCalls]
    exact ⟨bg, hg1⟩
  rcases step_error _ _ _ _ _ _ _ h3 with ⟨hg3, hl⟩ | ⟨plan, hg3, h4⟩
  · refine ⟨[(Provider.perplexity, prompt_a_bg t),
      (Provider.gpt, prompt_a_ideas t bg)],
      (Provider.gemini, prompt_a_plan t bg ideas), by simpa using hl, hg3, ?_⟩
    simp [okCalls]
    exact ⟨⟨bg, hg1⟩, ⟨ideas, hg2⟩⟩
  · simp at h4

/-- A failing continue-pipeline run logs exactly the calls up to and including
the first failing one. -/
theorem report_pipeline_abort (gen : Gen) (t prev e : String)
    (l : List (Provider × String))
    (h : handle_mode_a_report gen t prev [] = (Except.error e, l)) :
    ∃ pre c, l = pre ++ [c] ∧ gen c.1 c.2 = Except.error e ∧ okCalls gen pre := by
  unfold handle_mode_a_report at h
  rcases step_error _ _ _ _ _ _ _ h with ⟨hg1, hl⟩ | ⟨outline, hg1, h2⟩
  · refine ⟨[], (Provider.gemini, prompt_a_outline prev t), by simpa using hl, hg1, ?_⟩
    simp [okCalls]
  rcases step_error _ _ _ _ _ _ _ h2 with ⟨hg2, hl⟩ | ⟨rep, hg2, h3⟩
  · refine ⟨[(Provider.gemini, prompt_a_outline prev t)],
      (Provider.claude, prompt_a_report outline), by simpa using hl, hg2, ?_⟩
    simp [okCalls]
    exact ⟨outline, hg1⟩
  · simp at h3

/-- A failing essay-pipeline run logs exactly the calls up to and including
the first failing one. -/
theorem essay_pipeline_abort (gen : Gen) (t e : String)
    (l : List (Provider × String))
    (h : handle_mode_b_essay gen t [] = (Except.error e, l)) :
    ∃ pre c, l = pre ++ [c] ∧ gen c.1 c.2 = Except.error e ∧ okCalls gen pre := by
  unfold handle_mode_b_essay at h
  rcases step_error _ _ _ _ _ _ _ h with ⟨hg1, hl⟩ | ⟨facts, hg1, h2⟩
  · refine ⟨[], (Provider.perplexity, prompt_b_facts t), by simpa using hl, hg1, ?_⟩
    simp [okCalls]
  rcases step_error _ _ _ _ _ _ _ h2 with ⟨hg2, hl⟩ | ⟨draft, hg2, h3⟩
  · refine ⟨[(Provider.perplexity, prompt_b_facts t)],
      (Provider.gpt, prompt_b_draft t facts), by simpa using hl, hg2, ?_⟩
    simp [okCalls]
    exact ⟨facts, hg1⟩
  rcases step_error _ _ _ _ _ _ _ h3 with ⟨hg3, hl⟩ | ⟨checked, hg3, h4⟩
  · refine ⟨[(Provider.perplexity, prompt_b_facts t),
      (Provider.gpt, prompt_b_draft t facts)],
      (Provider.gemini, prompt_b_check draft), by simpa using hl, hg3, ?_⟩
    simp [okCalls]
    exact ⟨⟨facts, hg1⟩, ⟨draft, hg2⟩⟩
  rcases step_error _ _ _ _ _ _ _ h4 with ⟨hg4, hl⟩ | ⟨final, hg4, h5⟩
  · refine ⟨[(Provider.perplexity, prompt_b_facts t),
      (Provider.gpt, prompt_b_draft t facts),
      (Provider.gemini, prompt_b_check draft)],
      (Provider.claude, prompt_b_polish checked), by simpa using hl, hg4, ?_⟩
    simp [okCalls]
    exact ⟨⟨facts, hg1⟩, ⟨draft, hg2⟩, ⟨checked, hg3⟩⟩
  · simp at h5

/-- A failing ideas-pipeline run logs exactly the calls up to and including
the first failing one. -/
theorem ideas_pipeline_abort (gen : Gen) (t e : String)
    (l : List (Provider × String))
    (h : handle_mode_c_ideas gen t [] = (Except.error e, l)) :
    ∃ pre c, l = pre ++ [c] ∧ gen c.1 c.2 = Except.error e ∧ okCalls gen pre := by
  unfold handle_mode_c_ideas at h
  rcases step_error _ _ _ _ _ _ _ h with ⟨hg1, hl⟩ | ⟨raw, hg1, h2⟩
  · refine ⟨[], (Provider.gpt, prompt_c_raw t), by simpa using hl, hg1, ?_⟩
    simp [okCalls]
  rcases step_error _ _ _ _ _ _ _ h2 with ⟨hg2, hl⟩ | ⟨refined, hg2, h3⟩
  · refine ⟨[(Provider.gpt, prompt_c_raw t)],
      (Provider.gemini, prompt_c_refine t raw), by simpa using hl, hg2, ?_⟩
    simp [okCalls]
    exact ⟨raw, hg1⟩
  rcases step_error _ _ _ _ _ _ _ h3 with ⟨hg3, hl⟩ | ⟨final, hg3, h4⟩
  · refine ⟨[(Provider.gpt, prompt_c_raw t),
      (Provider.gemini, prompt_c_refine t raw)],
      (Provider.claude, prompt_c_final refined), by simpa using hl, hg3, ?_⟩
    simp [okCalls]
    exact ⟨⟨raw, hg1⟩, ⟨refined, hg2⟩⟩
  · simp at h4

/-- A failing research-pipeline run logs exactly the calls up to and including
the first failing one. -/
theorem research_pipeline_abort (gen : Gen) (t e : String)
    (l : List (Provider × String))
    (h : handle_mode_d_research gen t [] = (Except.error e, l)) :
    ∃ pre c, l = pre ++ [c] ∧ gen c.1 c.2 = Except.error e ∧ okCalls gen pre := by
  unfold handle_mode_d_research at h
  rcases step_error _ _ _ _ _ _ _ h with ⟨hg1, hl⟩ | ⟨px, hg1, h2⟩
  · refine ⟨[], (Provider.perplexity, prompt_d_research t), by simpa using hl, hg1, ?_⟩
    simp [okCalls]
  rcases step_error _ _ _ _ _ _ _ h2 with ⟨hg2, hl⟩ | ⟨final, hg2, h3⟩
  · refine ⟨[(Provider.perplexity, prompt_d_research t)],
      (Provider.gemini, prompt_d_final px), by simpa using hl, hg2, ?_⟩
    simp [okCalls]
    exact ⟨px, hg1⟩
  · simp at h3

/-- C10: whenever `chat` produces a failure response, that response wraps the
underlying provider error's description in the fixed human-readable server
error message, the call log ends with the failing provider call, and every
provider call before it succeeded — so the pipeline aborted at the first
failure with no retries and no further calls. -/
theorem chat_error_aborts (gen : Gen) (req : ChatRequest) (s : Option String)
    (msg : String) (h : (chat gen req s).resp = Except.error msg) :
    ∃ e, msg = server_error_detail e ∧
      ∃ pre c, (chat gen req s).log = pre ++ [c] ∧
        gen c.1 c.2 = Except.error e ∧ okCalls gen pre := by
  rcases req with ⟨mode, text⟩
  cases mode
  case A =>
    cases hw : is_report_request text with
    | true =>
      cases s with
      | none => simp [chat, hw] at h
      | some prev =>
        rcases hr : handle_mode_a_report gen text prev [] with ⟨r, l⟩
        cases r with
        | ok a => simp [chat, hw, hr] at h
        | error e =>
          have hc : chat gen ⟨Mode.A, text⟩ (some prev) =
              { resp := .error (server_error_detail e), state := some prev,
                log := l } := by
            simp [chat, hw, hr]
          rw [hc] at h ⊢
          injection h with h1
          exact ⟨e, h1.symm, report_pipeline_abort gen text prev e l hr⟩
    | false =>
      rcases hp : handle_mode_a_plan gen text [] with ⟨r, l⟩
      cases r with
      | ok p => simp [chat, hw, hp] at h
      | error e =>
        have hc : chat gen ⟨Mode.A, text⟩ s =
            { resp := .error (server_error_detail e), state := s, log := l } := by
          simp [chat, hw, hp]
        rw [hc] at h ⊢
        injection h with h1
        exact ⟨e, h1.symm, plan_pipeline_abort gen text e l hp⟩
  case B =>
    rcases hb : handle_mode_b_essay gen text [] with ⟨r, l⟩
    cases r with
    | ok a => simp [chat, hb] at h
    | error e =>
      have hc : chat gen ⟨Mode.B, text⟩ s =
          { resp := .error (server_error_detail e), state := s, log := l } := by
        simp [chat, hb]
      rw [hc] at h ⊢
      injection h with h1
      exact ⟨e, h1.symm, essay_pipeline_abort gen text e l hb⟩
  case C =>
    rcases hi : handle_mode_c_ideas gen text [] with ⟨r, l⟩
    cases r with
    | ok a => simp [chat, hi] at h
    | error e =>
      have hc : chat gen ⟨Mode.C, text⟩ s =
          { resp := .error (server_error_detail e), state := s, log := l } := by
        simp [chat, hi]
      rw [hc] at h ⊢
      injection h with h1
      exact ⟨e, h1.symm, ideas_pipeline_abort gen text e l hi⟩
  case D =>
    rcases hd : handle_mode_d_research gen text [] with ⟨r, l⟩
    cases r with
    | ok a => simp [chat, hd] at h
    | error e =>
      have hc : chat gen ⟨Mode.D, text⟩ s =
          { resp := .error (server_error_detail e), state := s, log := l } := by
        simp [chat, hd]
      rw [hc] at h ⊢
      injection h with h1
      exact ⟨e, h1.symm, research_pipeline_abort gen text e l hd⟩

/-- Witness for C10: in mode B with a provider environment whose GPT backend
fails with "boom", the essay pipeline aborts after stage 2 and the failure
response embeds "boom". -/
theorem chat_error_aborts_witness :
    (chat genFailGpt ⟨Mode.B, "t"⟩ none).resp =
      Except.error (server_error_detail "boom") ∧
    ∃ e, server_error_detail "boom" = server_error_detail e ∧
      ∃ pre c, (chat genFailGpt ⟨Mode.B, "t"⟩ none).log = pre ++ [c] ∧
        genFailGpt c.1 c.2 = Except.error e ∧ okCalls genFailGpt pre :=
  ⟨rfl, chat_error_aborts genFailGpt ⟨Mode.B, "t"⟩ none
    (server_error_detail "boom") rfl⟩
